import Mathlib

/-!
Verification of the Transform and Load stages of the E-Commerce-ETL repository
(src/E-Commerce-ETL-main), as a shallow embedding in Lean 4.

Modelling conventions, fixed once for the whole file:

* Tables are lists of typed row structures; every column of the source schema
  that survives a transform is a field of the corresponding structure.
* UUID-valued identifier columns are modelled as `Nat`.  The source applies
  `uuid.UUID` to such columns, which only reparses/normalises the value; the
  claims under study never depend on the textual form, so the parse is the
  identity on the model.
* Timestamps and ISO date strings are modelled as `Nat` codes (for example
  `yyyymmdd`).  Equal-length ISO-8601 date strings compare lexicographically
  exactly as their chronological order, so `sort_values` on the string column
  `review_creation_date` is faithfully modelled by sorting these codes.
* Monetary values (`price`, `freight_value`, `payment_value`) are modelled as
  exact integer cents (`ℤ`).  The source stores them as float64; every literal
  used in the claims has two decimal digits, and for the concrete input of
  claim C3 (10.40 + 2.10) the float64 sum is exactly 12.5, so the cents model
  and the float computation agree on every tested point.  `numpy.round` (hence
  `pandas.Series.round`) rounds half to even, which `roundHalfEvenCents`
  implements exactly.
* `pandas.DataFrame` in-place mutation is modelled by returning the final
  state of the argument as part of the result (state-passing style).
* External effects (S3 put, Snowflake connection/write, stdout) are modelled
  by explicit boolean outcome parameters; the functions under study only
  combine those outcomes, they never produce them.
-/

set_option maxRecDepth 20000

namespace ETL

/-! ## Monetary rounding (Transform/transform.py line 85)

`order_items_df["total_price"] = (order_items_df["freight_value"] +
order_items_df["price"]).round().astype(int)`.

Amounts are integer cents; `roundHalfEvenCents s` is the whole-currency-unit
result of rounding `s` cents to the nearest unit, halves to even, exactly the
semantics of `numpy.round` on the float values. -/

def roundHalfEvenCents (s : ℤ) : ℤ :=
  if Int.emod s 100 < 50 then Int.ediv s 100
  else if 50 < Int.emod s 100 then Int.ediv s 100 + 1
  else if Int.emod (Int.ediv s 100) 2 = 0 then Int.ediv s 100
  else Int.ediv s 100 + 1

def total_price (price freight_value : ℤ) : ℤ :=
  roundHalfEvenCents (freight_value + price)

/-! ## Order reviews (Transform/transform.py lines 93-98)

The raw table already has `review_comment_title` / `review_comment_message`
dropped (line 94) and is then sorted by `review_creation_date` and collapsed
with `drop_duplicates("order_id", keep="last")` (line 98). -/

structure Review where
  review_id : Nat
  order_id : Nat
  review_score : Nat
  review_creation_date : Nat
  review_answer_timestamp : Nat
  deriving DecidableEq, Repr

def reviewDateLe (a b : Review) : Prop :=
  a.review_creation_date ≤ b.review_creation_date

instance : DecidableRel reviewDateLe :=
  fun a b => Nat.decLe a.review_creation_date b.review_creation_date

instance : IsTotal Review reviewDateLe :=
  ⟨fun a b => Nat.le_total a.review_creation_date b.review_creation_date⟩

instance : IsTrans Review reviewDateLe :=
  ⟨fun _ _ _ h h2 => Nat.le_trans h h2⟩

/-- `sort_values("review_creation_date")`: a comparison sort on the creation
date.  Only sortedness and permutation of the result are ever used, which hold
for any correct comparison sort, so insertion sort stands in for the pandas
sort. -/
def sort_values (l : List Review) : List Review :=
  List.insertionSort reviewDateLe l

/-- `drop_duplicates(key, keep="last")`: keep, in order, exactly those rows
whose key does not occur again later in the list. -/
def dropDupKeepLast {α β : Type} (key : α → β) [DecidableEq β] : List α → List α
  | [] => []
  | x :: xs =>
    if xs.any (fun y => decide (key y = key x)) then dropDupKeepLast key xs
    else x :: dropDupKeepLast key xs

/-- Lines 94-98 combined: the review table one-row-per-order collapse. -/
def dedupReviews (l : List Review) : List Review :=
  dropDupKeepLast (fun r => r.order_id) (sort_values l)

/-! ## First-occurrence deduplication

`pandas.DataFrame.drop_duplicates()` (line 128) and `pandas.Series.unique()`
(lines 79, 116, 121) both keep the first occurrence, in order of first
appearance. -/

def dropDupKeepFirstAux {α : Type} [DecidableEq α] (seen : List α) : List α → List α
  | [] => []
  | x :: xs =>
    if x ∈ seen then dropDupKeepFirstAux seen xs
    else x :: dropDupKeepFirstAux (x :: seen) xs

def dropDupKeepFirst {α : Type} [DecidableEq α] (l : List α) : List α :=
  dropDupKeepFirstAux [] l

/-! ## Customers (Transform/transform.py lines 76-80 and 124-129) -/

/-- Raw `olist_customers_dataset` row.  The source column
`customer_zip_code_prefix` is carried here under the shortened field name
`customer_zip_code`. -/
structure CustomerRow where
  customer_id : Nat
  customer_unique_id : Nat
  customer_zip_code : Nat
  customer_city : String
  customer_state : String
  deriving DecidableEq, Repr

/-- Line 79: `id_to_name = {cust_id: f"Customer_{idx + 1}" ...}` built by
enumerating `customer_unique_id.unique()` (first-appearance order). -/
def customerName (customers : List CustomerRow) (uid : Nat) : String :=
  "Customer_" ++
    toString (List.indexOf uid
      (dropDupKeepFirst (customers.map (fun r => r.customer_unique_id))) + 1)

/-- Line 125: `customer_map = customers_df.set_index("customer_id")["customer_unique_id"]`,
then used through `Series.map`.  `customer_id` is unique per raw row, so the
first match is the mapping; an absent key maps to NaN, modelled by `none`. -/
def customerMapLookup (customers : List CustomerRow) (cid : Nat) : Option Nat :=
  (customers.find? (fun r => r.customer_id == cid)).map (fun r => r.customer_unique_id)

/-- A `dim_customers` row: after dropping the order-scoped `customer_id`
column (line 127), deduplicating (line 128) and renaming
`customer_unique_id` to `customer_id` (line 129). -/
structure DimCustomerRow where
  customer_id : Nat
  customer_zip_code : Nat
  customer_city : String
  customer_state : String
  customer_name : String
  deriving DecidableEq, Repr

/-- Lines 77-80 and 127-129: name assignment, column drop, exact-duplicate
row removal, key rename. -/
def dimCustomers (customers : List CustomerRow) : List DimCustomerRow :=
  dropDupKeepFirst (customers.map (fun r =>
    { customer_id := r.customer_unique_id
      customer_zip_code := r.customer_zip_code
      customer_city := r.customer_city
      customer_state := r.customer_state
      customer_name := customerName customers r.customer_unique_id }))

/-! ## Order items (Transform/transform.py lines 82-88) -/

/-- Raw `olist_order_items_dataset` row after the unconditional
`drop(["order_items_id"], errors="ignore")` of line 83; the raw column
`quantity` is renamed to `order_item_id` at line 84. -/
structure OrderItemRaw where
  order_id : Nat
  quantity : Nat
  product_id : Nat
  seller_id : Nat
  shipping_limit_date : Nat
  price : ℤ
  freight_value : ℤ
  deriving DecidableEq, Repr

structure OrderItemRow where
  order_id : Nat
  order_item_id : Nat
  product_id : Nat
  seller_id : Nat
  shipping_limit_date : Nat
  price : ℤ
  freight_value : ℤ
  total_price : ℤ
  deriving DecidableEq, Repr

def transformOrderItem (r : OrderItemRaw) : OrderItemRow :=
  { order_id := r.order_id
    order_item_id := r.quantity
    product_id := r.product_id
    seller_id := r.seller_id
    shipping_limit_date := r.shipping_limit_date
    price := r.price
    freight_value := r.freight_value
    total_price := total_price r.price r.freight_value }

/-! ## Order payments (Transform/transform.py lines 90-91, 137) -/

structure PaymentRow where
  order_id : Nat
  payment_sequential : Nat
  payment_type : String
  payment_installments : Nat
  payment_value : ℤ
  deriving DecidableEq, Repr

/-! ## Orders (Transform/transform.py lines 100-102, 126) -/

structure OrderRow where
  order_id : Nat
  customer_id : Nat
  order_status : String
  order_purchase_timestamp : Nat
  order_approved_at : Nat
  order_delivered_carrier_date : Nat
  order_delivered_customer_date : Nat
  order_estimated_delivery_date : Nat
  deriving DecidableEq, Repr

/-- The orders table after line 126,
`orders_df["customer_id"] = orders_df["customer_id"].map(customer_map)`:
the order-scoped customer id is replaced by the account-scoped one, NaN
(`none`) when the id is absent from the map. -/
structure OrderRow2 where
  order_id : Nat
  customer_id : Option Nat
  order_status : String
  order_purchase_timestamp : Nat
  order_approved_at : Nat
  order_delivered_carrier_date : Nat
  order_delivered_customer_date : Nat
  order_estimated_delivery_date : Nat
  deriving DecidableEq, Repr

def remapOrder (customers : List CustomerRow) (o : OrderRow) : OrderRow2 :=
  { order_id := o.order_id
    customer_id := customerMapLookup customers o.customer_id
    order_status := o.order_status
    order_purchase_timestamp := o.order_purchase_timestamp
    order_approved_at := o.order_approved_at
    order_delivered_carrier_date := o.order_delivered_carrier_date
    order_delivered_customer_date := o.order_delivered_customer_date
    order_estimated_delivery_date := o.order_estimated_delivery_date }

/-! ## Product categories and products (Transform/transform.py lines 104-117) -/

structure CategoryRow where
  product_category_name : String
  product_category_name_english : String
  deriving DecidableEq, Repr

/-- Line 105: `set_index("product_category_name")["product_category_name_english"].to_dict()`.
When a code occurs on several rows the last row wins in the dict, hence the
search over the reversed list. -/
def categoryLabel (cats : List CategoryRow) (c : String) : Option String :=
  ((cats.reverse).find? (fun row => row.product_category_name == c)).map
    (fun row => row.product_category_name_english)

/-- Line 106: `product_category_map["unknown"] = "unknown"` overwrites (or
adds) that single key of the dict. -/
def categoryLookupWithOverride (cats : List CategoryRow) (c : String) : Option String :=
  if c = "unknown" then some ("unknown") else categoryLabel cats c

/-- Line 107: `.map(product_category_map).fillna("unknown")`. -/
def enrichCategory (cats : List CategoryRow) (c : String) : String :=
  (categoryLookupWithOverride cats c).getD ("unknown")

/-- Raw `olist_products_dataset` row; the misspelled source columns
`product_name_lenght` / `product_description_lenght` are already carried under
the names they receive in the rename of lines 110-114. -/
structure ProductRaw where
  product_id : Nat
  product_category_name : String
  product_name_length : Nat
  product_description_length : Nat
  product_photos_qty : Nat
  product_weight_g : Nat
  product_length_cm : Nat
  product_height_cm : Nat
  product_width_cm : Nat
  deriving DecidableEq, Repr

structure DimProductRow where
  product_id : Nat
  product_category_name : String
  product_name_length : Nat
  product_description_length : Nat
  product_photos_qty : Nat
  product_weight_g : Nat
  product_length_cm : Nat
  product_height_cm : Nat
  product_width_cm : Nat
  product_name : String
  deriving DecidableEq, Repr

/-- Lines 116-117: `Product_<n>` naming over `product_id.unique()`. -/
def productName (prods : List ProductRaw) (pid : Nat) : String :=
  "Product_" ++
    toString (List.indexOf pid
      (dropDupKeepFirst (prods.map (fun r => r.product_id))) + 1)

/-- Lines 104-117: category enrichment then product naming. -/
def dimProducts (prods : List ProductRaw) (cats : List CategoryRow) : List DimProductRow :=
  prods.map (fun p =>
    { product_id := p.product_id
      product_category_name := enrichCategory cats p.product_category_name
      product_name_length := p.product_name_length
      product_description_length := p.product_description_length
      product_photos_qty := p.product_photos_qty
      product_weight_g := p.product_weight_g
      product_length_cm := p.product_length_cm
      product_height_cm := p.product_height_cm
      product_width_cm := p.product_width_cm
      product_name := productName prods p.product_id })

/-! ## Sellers (Transform/transform.py lines 119-122) -/

/-- Raw `olist_sellers_dataset` row; the source column
`seller_zip_code_prefix` is carried under the shortened field name
`seller_zip_code`. -/
structure SellerRow where
  seller_id : Nat
  seller_zip_code : Nat
  seller_city : String
  seller_state : String
  deriving DecidableEq, Repr

structure DimSellerRow where
  seller_id : Nat
  seller_zip_code : Nat
  seller_city : String
  seller_state : String
  seller_name : String
  deriving DecidableEq, Repr

def sellerName (sls : List SellerRow) (sid : Nat) : String :=
  "Seller_" ++
    toString (List.indexOf sid
      (dropDupKeepFirst (sls.map (fun r => r.seller_id))) + 1)

def dimSellers (sls : List SellerRow) : List DimSellerRow :=
  sls.map (fun s =>
    { seller_id := s.seller_id
      seller_zip_code := s.seller_zip_code
      seller_city := s.seller_city
      seller_state := s.seller_state
      seller_name := sellerName sls s.seller_id })

/-! ## Date dimension (Transform/transform.py lines 144-152)

`pd.date_range(start="2016-01-01", end="2018-12-31")` followed by the seven
derived columns.  Dates are proleptic-Gregorian calendar triples. -/

structure Date where
  year : Nat
  month : Nat
  day : Nat
  deriving DecidableEq, Repr

def isLeapYear (y : Nat) : Bool :=
  (y % 4 == 0 && y % 100 != 0) || y % 400 == 0

def daysInMonth (y m : Nat) : Nat :=
  if m = 2 then (if isLeapYear y then 29 else 28)
  else if m = 4 ∨ m = 6 ∨ m = 9 ∨ m = 11 then 30
  else 31

def dayOfYear (d : Date) : Nat :=
  (List.range (d.month - 1)).foldl (fun a i => a + daysInMonth d.year (i + 1)) 0 + d.day

/-- Day number in the proleptic Gregorian calendar; `rataDie ⟨1, 1, 1⟩ = 1`,
and that day was a Monday. -/
def rataDie (d : Date) : Nat :=
  365 * (d.year - 1) + (d.year - 1) / 4 - (d.year - 1) / 100 + (d.year - 1) / 400
    + dayOfYear d

/-- `pandas .dt.weekday`: Monday = 0 through Sunday = 6. -/
def weekdayMon0 (d : Date) : Nat :=
  (rataDie d - 1) % 7

def dayNames : List String :=
  ["Monday", "Tuesday", "Wednesday", "Thursday", "Friday", "Saturday", "Sunday"]

/-- `pandas .dt.day_name()`. -/
def dayName (d : Date) : String :=
  dayNames.getD (weekdayMon0 d) ("Monday")

/-- CPython `strftime("%W")` (line 149): week of the year with Monday as the
first day of the week; all days of a new year preceding its first Monday are
in week 0.  Equals `(dayOfYear + 6 - weekday) / 7`. -/
def strftimeW (d : Date) : Nat :=
  (dayOfYear d + 6 - weekdayMon0 d) / 7

def nextDay (d : Date) : Date :=
  if d.day < daysInMonth d.year d.month then { d with day := d.day + 1 }
  else if d.month < 12 then { year := d.year, month := d.month + 1, day := 1 }
  else { year := d.year + 1, month := 1, day := 1 }

/-- `pd.date_range(start, end)` with daily frequency: every calendar day from
`start` to `stop` inclusive.  The fuel bounds the recursion; it is never
exhausted for the one concrete range the pipeline generates (1096 days,
fuel 1200). -/
def dateRangeAux : Nat → Date → Date → List Date
  | 0, _, _ => []
  | fuel + 1, cur, stop =>
    if rataDie cur ≤ rataDie stop then cur :: dateRangeAux fuel (nextDay cur) stop
    else []

def date_range (start stop : Date) : List Date :=
  dateRangeAux 1200 start stop

structure DimDateRow where
  date : Date
  quarter : Nat
  month : Nat
  year : Nat
  week_by_year : Nat
  day : Nat
  weekday : Nat
  weekday_name : String
  deriving DecidableEq, Repr

/-- Lines 146-152: the seven derived columns, each a pure function of the
date (`dt.quarter`, `dt.month`, `dt.year`, `strftime("%W")`, `dt.day`,
`dt.weekday`, `dt.day_name()`). -/
def mkDimDateRow (d : Date) : DimDateRow :=
  { date := d
    quarter := (d.month + 2) / 3
    month := d.month
    year := d.year
    week_by_year := strftimeW d
    day := d.day
    weekday := weekdayMon0 d
    weekday_name := dayName d }

def dimDatesList : List Date :=
  date_range ⟨2016, 1, 1⟩ ⟨2018, 12, 31⟩

/-- The `dim_dates` table of lines 145-152. -/
def dimDatesTable : List DimDateRow :=
  dimDatesList.map mkDimDateRow

/-- Modelled from the spec: the ISO-8601 week-of-year number, which §3 of the
spec claims the `week_by_year` column carries.  This definition follows the
ISO rule (weeks start on Monday; week 1 is the week containing the first
Thursday of the year) and exists only to be compared against `strftimeW`,
the convention the code actually uses. -/
def isoWeeksInYear (y : Nat) : Nat :=
  if weekdayMon0 ⟨y, 1, 1⟩ == 3 || (isLeapYear y && weekdayMon0 ⟨y, 1, 1⟩ == 2) then 53
  else 52

/-- Modelled from the spec: ISO week-of-year of a date (see `isoWeeksInYear`). -/
def isoWeek (d : Date) : Nat :=
  let w := (dayOfYear d + 10 - (weekdayMon0 d + 1)) / 7
  if w == 0 then isoWeeksInYear (d.year - 1)
  else if isoWeeksInYear d.year < w then 1
  else w

/-- Independent characterisation of the `%W` convention, used to state the
amended claim C6: the first Monday of the year has day-of-year
`1 + (7 - weekday(Jan 1)) % 7`; days before it are week 0, and each later
Monday starts the next week. -/
def mondayWeek (d : Date) : Nat :=
  let f := 1 + (7 - weekdayMon0 ⟨d.year, 1, 1⟩) % 7
  if dayOfYear d < f then 0 else 1 + (dayOfYear d - f) / 7

/-! ## Fact tables (Transform/transform.py lines 131-137)

`fact_orders = order_items_df.merge(orders_df, on="order_id", how="left")
.merge(order_reviews_df, on="order_id", how="left")`, then the review
metadata columns are dropped (line 134) and `review_score` is renamed to
`order_rating` (line 135). -/

structure Fact1 where
  order_id : Nat
  order_item_id : Nat
  product_id : Nat
  seller_id : Nat
  shipping_limit_date : Nat
  price : ℤ
  freight_value : ℤ
  total_price : ℤ
  customer_id : Option Nat
  order_status : Option String
  order_purchase_timestamp : Option Nat
  order_approved_at : Option Nat
  order_delivered_carrier_date : Option Nat
  order_delivered_customer_date : Option Nat
  order_estimated_delivery_date : Option Nat
  deriving DecidableEq, Repr

structure FactOrderRow where
  order_id : Nat
  order_item_id : Nat
  product_id : Nat
  seller_id : Nat
  shipping_limit_date : Nat
  price : ℤ
  freight_value : ℤ
  total_price : ℤ
  customer_id : Option Nat
  order_status : Option String
  order_purchase_timestamp : Option Nat
  order_approved_at : Option Nat
  order_delivered_carrier_date : Option Nat
  order_delivered_customer_date : Option Nat
  order_estimated_delivery_date : Option Nat
  order_rating : Option Nat
  deriving DecidableEq, Repr

/-- `merge(..., on=key, how="left")`: every left row is retained; it is
repeated once per matching right row, or kept once with nulls on the right
side when nothing matches. -/
def leftJoin {α β γ : Type} (keyL : α → Nat) (keyR : β → Nat)
    (comb : α → Option β → γ) (ls : List α) (rs : List β) : List γ :=
  ls.flatMap (fun l =>
    match rs.filter (fun r => keyR r == keyL l) with
    | [] => [comb l none]
    | ms => ms.map (fun r => comb l (some r)))

def mergeItemOrder (l : OrderItemRow) (o : Option OrderRow2) : Fact1 :=
  { order_id := l.order_id
    order_item_id := l.order_item_id
    product_id := l.product_id
    seller_id := l.seller_id
    shipping_limit_date := l.shipping_limit_date
    price := l.price
    freight_value := l.freight_value
    total_price := l.total_price
    customer_id := o.bind (fun x => x.customer_id)
    order_status := o.map (fun x => x.order_status)
    order_purchase_timestamp := o.map (fun x => x.order_purchase_timestamp)
    order_approved_at := o.map (fun x => x.order_approved_at)
    order_delivered_carrier_date := o.map (fun x => x.order_delivered_carrier_date)
    order_delivered_customer_date := o.map (fun x => x.order_delivered_customer_date)
    order_estimated_delivery_date := o.map (fun x => x.order_estimated_delivery_date) }

/-- The second merge immediately followed by the drop of `review_id`,
`review_answer_timestamp`, `review_creation_date` (line 134) and the rename
of `review_score` to `order_rating` (line 135); the dropped columns are not
materialised. -/
def mergeFactReview (f : Fact1) (r : Option Review) : FactOrderRow :=
  { order_id := f.order_id
    order_item_id := f.order_item_id
    product_id := f.product_id
    seller_id := f.seller_id
    shipping_limit_date := f.shipping_limit_date
    price := f.price
    freight_value := f.freight_value
    total_price := f.total_price
    customer_id := f.customer_id
    order_status := f.order_status
    order_purchase_timestamp := f.order_purchase_timestamp
    order_approved_at := f.order_approved_at
    order_delivered_carrier_date := f.order_delivered_carrier_date
    order_delivered_customer_date := f.order_delivered_customer_date
    order_estimated_delivery_date := f.order_estimated_delivery_date
    order_rating := r.map (fun x => x.review_score) }

def fact1Of (items : List OrderItemRow) (orders2 : List OrderRow2) : List Fact1 :=
  leftJoin (fun i => i.order_id) (fun o => o.order_id) mergeItemOrder items orders2

def factOrdersOf (items : List OrderItemRow) (orders2 : List OrderRow2)
    (reviews2 : List Review) : List FactOrderRow :=
  leftJoin (fun f => f.order_id) (fun r => r.order_id) mergeFactReview
    (fact1Of items orders2) reviews2

/-! ## The Transform stage entry point (Transform/transform.py main, lines 41-264) -/

/-- The six tables handed to `load_df_to_snowflake` at lines 259-264. -/
structure Outputs where
  fact_orders : List FactOrderRow
  fact_payments : List PaymentRow
  dim_customers : List DimCustomerRow
  dim_sellers : List DimSellerRow
  dim_products : List DimProductRow
  dim_dates : List DimDateRow
  deriving DecidableEq, Repr

/-- The eight raw tables of lines 45-53; `none` models a parquet file that
failed to load (`extract_local` returned `None`). -/
structure Inputs where
  customers : Option (List CustomerRow)
  order_items : Option (List OrderItemRaw)
  order_payments : Option (List PaymentRow)
  order_reviews : Option (List Review)
  orders : Option (List OrderRow)
  product_categories : Option (List CategoryRow)
  products : Option (List ProductRaw)
  sellers : Option (List SellerRow)
  deriving Repr

/-- `df is None or df.empty` (line 67). -/
def missingOrEmpty {α : Type} : Option (List α) → Bool
  | none => true
  | some l => l.isEmpty

/-- The guard loop of lines 55-69, over the dict insertion order. -/
def missingAny (inp : Inputs) : Bool :=
  missingOrEmpty inp.customers || missingOrEmpty inp.order_items ||
  missingOrEmpty inp.order_payments || missingOrEmpty inp.order_reviews ||
  missingOrEmpty inp.orders || missingOrEmpty inp.product_categories ||
  missingOrEmpty inp.products || missingOrEmpty inp.sellers

/-- Lines 75-152: every transform applied once all inputs are present. -/
def buildOutputs (cs : List CustomerRow) (its : List OrderItemRaw)
    (ps : List PaymentRow) (rs : List Review) (os : List OrderRow)
    (cats : List CategoryRow) (prods : List ProductRaw) (sls : List SellerRow) :
    Outputs :=
  let items := its.map transformOrderItem
  let reviews2 := dedupReviews rs
  let orders2 := os.map (remapOrder cs)
  { fact_orders := factOrdersOf items orders2 reviews2
    fact_payments := ps
    dim_customers := dimCustomers cs
    dim_sellers := dimSellers sls
    dim_products := dimProducts prods cats
    dim_dates := dimDatesTable }

/-- `main` up to the Loader handoff: `none` models the early `return` of
line 69 (no output table is built); `some` carries the six tables that reach
lines 259-264. -/
def transformMain (inp : Inputs) : Option Outputs :=
  if missingAny inp then none
  else
    match inp.customers, inp.order_items, inp.order_payments, inp.order_reviews,
      inp.orders, inp.product_categories, inp.products, inp.sellers with
    | some cs, some its, some ps, some rs, some os, some cats, some prods, some sls =>
      some (buildOutputs cs its ps rs os cats prods sls)
    | _, _, _, _, _, _, _, _ => none

/-! ## Table creation (Transform/transform.py lines 30-38 and 251-254)

`transform.py` defines its own `create_tables_in_snowflake` after importing
the loader function of the same name (line 10), so the module-level name used
by the loop of lines 251-254 is this local definition.  Its `try` body only
prints and returns `True`; no operation in it can fail, so it returns `True`
on every input. -/

def create_tables_in_snowflake (_create_query : String) : Bool :=
  true

/-- Lines 157-249: the six (table name, DDL) pairs.  The DDL texts play no
role in control flow and are abbreviated to the statement head. -/
def table_creations : List (String × String) :=
  [("FACT_ORDERS", "CREATE TABLE IF NOT EXISTS FACT_ORDERS"),
   ("FACT_PAYMENTS", "CREATE TABLE IF NOT EXISTS FACT_PAYMENTS"),
   ("DIM_CUSTOMERS", "CREATE TABLE IF NOT EXISTS DIM_CUSTOMERS"),
   ("DIM_SELLERS", "CREATE TABLE IF NOT EXISTS DIM_SELLERS"),
   ("DIM_PRODUCTS", "CREATE TABLE IF NOT EXISTS DIM_PRODUCTS"),
   ("DIM_DATES", "CREATE TABLE IF NOT EXISTS DIM_DATES")]

/-- The loop of lines 251-254: `raise Exception(f"Failed to create table
{table_name}")` when a creation reports failure, modelled as `Except.error`. -/
def runTableCreations : List (String × String) → Except String Unit
  | [] => Except.ok ()
  | tc :: rest =>
    if create_tables_in_snowflake tc.2 then runTableCreations rest
    else Except.error ("Failed to create table " ++ tc.1)

/-! ## Loaders (Load/s3_loader.py and Load/snowflake_loader.py)

A generic DataFrame model: a list of named, typed columns.  In-place mutation
of the caller's frame is modelled by returning the final state of the frame
alongside the boolean result.  External outcomes (parquet serialisation, S3
put, env-var presence, Snowflake write) are boolean parameters. -/

inductive Dtype
  | object
  | datetimeNaive
  | datetimeTZ
  | int64
  | float64
  deriving DecidableEq, Repr

inductive Val
  | uuid : Nat → Val
  | str : String → Val
  | intv : Int → Val
  | ts : Nat → Val
  deriving DecidableEq, Repr

/-- `astype(str)` on a single cell. -/
def valToStr : Val → Val
  | Val.uuid n => Val.str ("uuid-" ++ toString n)
  | Val.str s => Val.str s
  | Val.intv n => Val.str (toString n)
  | Val.ts t => Val.str (toString t)

structure Column where
  name : String
  dtype : Dtype
  values : List Val
  deriving DecidableEq, Repr

/-- `col.endswith("_id")` on a column name, as a character-list suffix test. -/
def nameEndsWithId (s : String) : Bool :=
  List.isSuffixOf (String.data ("_id")) s.data

/-- s3_loader.py lines 28-30 and snowflake_loader.py lines 98-100: every
column whose name ends in `_id` with object dtype gets `astype(str)`. -/
def convertIdCols (df : List Column) : List Column :=
  df.map (fun c =>
    if nameEndsWithId c.name && (c.dtype == Dtype.object) then
      { c with values := c.values.map valToStr }
    else c)

/-- snowflake_loader.py lines 103-106: timezone-naive datetime columns are
localised to UTC. -/
def localizeNaive (df : List Column) : List Column :=
  df.map (fun c =>
    if c.dtype == Dtype.datetimeNaive then { c with dtype := Dtype.datetimeTZ }
    else c)

/-- `df.empty`: a frame with no columns or zero-length columns. -/
def dfEmpty (df : List Column) : Bool :=
  df.isEmpty || df.any (fun c => c.values.isEmpty)

/-- s3_loader.py `upload_df_to_s3`: the `_id` conversion happens before the
`to_parquet` attempt, unconditionally; `parquetOk` and `putOk` are the
outcomes of the two `try` blocks.  The second component is the final state of
the caller's frame. -/
def upload_df_to_s3 (df : List Column) (parquetOk putOk : Bool) :
    Bool × List Column :=
  let df2 := convertIdCols df
  if parquetOk then (putOk, df2) else (false, df2)

/-- snowflake_loader.py `load_df_to_snowflake`: the env-var check (line 83),
the emptiness check (line 87) and the table-name check (line 91) each return
`False` before any mutation; only then are the `_id` conversion and the UTC
localisation applied, followed by the `write_pandas` attempt (`writeOk`).
An invalid table name is modelled as the empty string. -/
def load_df_to_snowflake (envOk : Bool) (table : String) (df : List Column)
    (writeOk : Bool) : Bool × List Column :=
  if envOk then
    if dfEmpty df then (false, df)
    else if table == "" then (false, df)
    else
      let df2 := localizeNaive (convertIdCols df)
      (writeOk, df2)
  else (false, df)

/-! ## Concrete inputs used by counterexamples and witnesses -/

/-- A complete, nonempty input set in which the single order-items row
references `product_id = 99` while the products table only contains
`product_id = 77`: a dangling foreign key in `fact_orders`. -/
def exInputsC1 : Inputs :=
  { customers := some [⟨1, 100, 11, "CityA", "AA"⟩]
    order_items := some [⟨10, 1, 99, 7, 0, 1000, 200⟩]
    order_payments := some [⟨10, 1, "credit_card", 1, 1200⟩]
    order_reviews := some [⟨500, 10, 4, 20180101, 0⟩]
    orders := some [⟨10, 1, "delivered", 1, 2, 3, 4, 5⟩]
    product_categories := some [⟨"cat", "category"⟩]
    products := some [⟨77, "cat", 1, 1, 1, 1, 1, 1, 1⟩]
    sellers := some [⟨7, 20, "CityB", "BB"⟩] }

/-- Two raw customer rows with the same `customer_unique_id` (7) but
different zip code and city, as happens in the Olist source data when one
account places orders from two addresses. -/
def exCustomersC2 : List CustomerRow :=
  [⟨1, 7, 10, "A", "S"⟩, ⟨2, 7, 20, "B", "S"⟩]

/-- Two reviews for the same order 10: score 2 created 2018-01-01. -/
def exReviewA : Review := ⟨501, 10, 2, 20180101, 0⟩

/-- Two reviews for the same order 10: score 5 created 2018-03-01. -/
def exReviewB : Review := ⟨502, 10, 5, 20180301, 0⟩

/-- A complete input set whose single order carries the two reviews
`exReviewA` and `exReviewB`. -/
def exInputsC4 : Inputs :=
  { customers := some [⟨1, 100, 11, "CityA", "AA"⟩]
    order_items := some [⟨10, 1, 77, 7, 0, 1000, 200⟩]
    order_payments := some [⟨10, 1, "credit_card", 1, 1200⟩]
    order_reviews := some [exReviewA, exReviewB]
    orders := some [⟨10, 1, "delivered", 1, 2, 3, 4, 5⟩]
    product_categories := some [⟨"cat", "category"⟩]
    products := some [⟨77, "cat", 1, 1, 1, 1, 1, 1, 1⟩]
    sellers := some [⟨7, 20, "CityB", "BB"⟩] }

/-- An input set whose customers table loaded but is empty. -/
def exInputsC7 : Inputs :=
  { customers := some []
    order_items := some [⟨10, 1, 77, 7, 0, 1000, 200⟩]
    order_payments := some [⟨10, 1, "credit_card", 1, 1200⟩]
    order_reviews := some [⟨500, 10, 4, 20180101, 0⟩]
    orders := some [⟨10, 1, "delivered", 1, 2, 3, 4, 5⟩]
    product_categories := some [⟨"cat", "category"⟩]
    products := some [⟨77, "cat", 1, 1, 1, 1, 1, 1, 1⟩]
    sellers := some [⟨7, 20, "CityB", "BB"⟩] }

/-- A category lookup table that maps the literal code `unknown` to a
non-fallback label. -/
def exCatsC8 : List CategoryRow := [⟨"unknown", "misc"⟩]

/-- One product whose raw category code is the literal string `unknown`. -/
def exProductsC8 : List ProductRaw := [⟨1, "unknown", 0, 0, 0, 0, 0, 0, 0⟩]

/-- A one-column frame with an object-dtype `_id` column, the kind both
loaders convert with `astype(str)`. -/
def exDfC10 : List Column := [⟨"customer_id", Dtype.object, [Val.uuid 1]⟩]

/-! ## Helper lemmas -/

theorem dropDupKeepLast_subset {α β : Type} (key : α → β) [DecidableEq β]
    (l : List α) : ∀ x ∈ dropDupKeepLast key l, x ∈ l := by
  induction l with
  | nil => intro x hx; simp [dropDupKeepLast] at hx
  | cons a as ih =>
    intro x hx
    by_cases h : (as.any (fun y => decide (key y = key a))) = true
    · rw [dropDupKeepLast, if_pos h] at hx
      exact List.mem_cons_of_mem a (ih x hx)
    · rw [dropDupKeepLast, if_neg h] at hx
      rcases List.mem_cons.mp hx with rfl | hx2
      · exact List.mem_cons_self x as
      · exact List.mem_cons_of_mem a (ih x hx2)

theorem dropDupKeepLast_keys_nodup {α β : Type} (key : α → β) [DecidableEq β]
    (l : List α) : ((dropDupKeepLast key l).map key).Nodup := by
  induction l with
  | nil => simp [dropDupKeepLast]
  | cons a as ih =>
    by_cases h : (as.any (fun y => decide (key y = key a))) = true
    · rw [dropDupKeepLast, if_pos h]; exact ih
    · rw [dropDupKeepLast, if_neg h]
      rw [List.map_cons, List.nodup_cons]
      refine ⟨fun hc => ?_, ih⟩
      rw [List.mem_map] at hc
      obtain ⟨y, hy, hky⟩ := hc
      exact h (List.any_eq_true.mpr
        ⟨y, dropDupKeepLast_subset key as y hy, by simp [hky]⟩)

theorem dropDupKeepLast_max_sorted (l : List Review)
    (hs : List.Sorted reviewDateLe l) :
    ∀ r ∈ dropDupKeepLast (fun x => x.order_id) l, ∀ s ∈ l,
      s.order_id = r.order_id → s.review_creation_date ≤ r.review_creation_date := by
  induction l with
  | nil => intro r hr; simp [dropDupKeepLast] at hr
  | cons a as ih =>
    rw [List.sorted_cons] at hs
    obtain ⟨ha, hs'⟩ := hs
    intro r hr s hsmem hkey
    by_cases h : (as.any (fun y => decide (y.order_id = a.order_id))) = true
    · rw [dropDupKeepLast, if_pos h] at hr
      rcases List.mem_cons.mp hsmem with rfl | hs3
      · exact ha r (dropDupKeepLast_subset (fun x => x.order_id) as r hr)
      · exact ih hs' r hr s hs3 hkey
    · rw [dropDupKeepLast, if_neg h] at hr
      rcases List.mem_cons.mp hr with rfl | hr2
      · rcases List.mem_cons.mp hsmem with rfl | hs3
        · exact Nat.le_refl _
        · exact absurd (List.any_eq_true.mpr ⟨s, hs3, by simp [hkey]⟩) h
      · rcases List.mem_cons.mp hsmem with rfl | hs3
        · exact ha r (dropDupKeepLast_subset (fun x => x.order_id) as r hr2)
        · exact ih hs' r hr2 s hs3 hkey

theorem dropDupKeepFirstAux_props {α : Type} [DecidableEq α] (l : List α) :
    ∀ seen : List α,
      (∀ x ∈ dropDupKeepFirstAux seen l, x ∈ l ∧ x ∉ seen) ∧
      (dropDupKeepFirstAux seen l).Nodup := by
  induction l with
  | nil => intro seen; simp [dropDupKeepFirstAux]
  | cons a as ih =>
    intro seen
    by_cases h : a ∈ seen
    · refine ⟨fun x hx => ?_, ?_⟩
      · rw [dropDupKeepFirstAux, if_pos h] at hx
        obtain ⟨h1, h2⟩ := (ih seen).1 x hx
        exact ⟨List.mem_cons_of_mem a h1, h2⟩
      · rw [dropDupKeepFirstAux, if_pos h]; exact (ih seen).2
    · refine ⟨fun x hx => ?_, ?_⟩
      · rw [dropDupKeepFirstAux, if_neg h] at hx
        rcases List.mem_cons.mp hx with rfl | hx2
        · exact ⟨List.mem_cons_self x as, h⟩
        · obtain ⟨h1, h2⟩ := (ih (a :: seen)).1 x hx2
          exact ⟨List.mem_cons_of_mem a h1, fun hc => h2 (List.mem_cons_of_mem a hc)⟩
      · rw [dropDupKeepFirstAux, if_neg h]
        rw [List.nodup_cons]
        refine ⟨fun hc => ?_, (ih (a :: seen)).2⟩
        exact ((ih (a :: seen)).1 a hc).2 (List.mem_cons_self a seen)

theorem dropDupKeepFirst_subset {α : Type} [DecidableEq α] (l : List α) :
    ∀ x ∈ dropDupKeepFirst l, x ∈ l :=
  fun x hx => ((dropDupKeepFirstAux_props l []).1 x hx).1

theorem dropDupKeepFirst_nodup {α : Type} [DecidableEq α] (l : List α) :
    (dropDupKeepFirst l).Nodup :=
  (dropDupKeepFirstAux_props l []).2

theorem roundHalfEvenCents_nearest (s : ℤ) :
    |s - 100 * roundHalfEvenCents s| ≤ 50 ∧
    (Int.emod s 100 ≠ 50 → |s - 100 * roundHalfEvenCents s| < 50) := by
  have hdm : 100 * Int.ediv s 100 + Int.emod s 100 = s := Int.ediv_add_emod s 100
  have h0 : 0 ≤ Int.emod s 100 := Int.emod_nonneg s (by norm_num)
  have h1 : Int.emod s 100 < 100 := Int.emod_lt_of_pos s (by norm_num)
  unfold roundHalfEvenCents
  split_ifs with hlt hgt hev <;>
    exact ⟨abs_le.mpr ⟨by omega, by omega⟩,
      fun hne => abs_lt.mpr ⟨by omega, by omega⟩⟩

theorem missingOrEmpty_eq_false {α : Type} {o : Option (List α)}
    (h : missingOrEmpty o = false) : ∃ l, o = some l := by
  cases o with
  | none => simp [missingOrEmpty] at h
  | some l => exact ⟨l, rfl⟩

/-! ## Claims -/

/-- Claim C1, counterexample.  The claim states that before any fact table is
handed to the Loader, the Fact Builder checks referential integrity of every
foreign-key column and aborts on a violation.  On the concrete input
`exInputsC1` the fact table contains a row with `product_id = 99` while the
product dimension contains no such key, yet the transform does not abort:
it hands exactly this fact table to the Loader.  No validation of any kind
exists between the joins (lines 131-142) and the load calls (lines 256-264)
of Transform/transform.py. -/
theorem C1_counterexample_dangling_fk_loaded :
    (transformMain exInputsC1).map (fun o =>
      (o.fact_orders.any (fun r => r.product_id == 99)) &&
      (o.dim_products.all (fun p => !(p.product_id == 99)))) = some true := by
  rfl

/-- Claim C1, amended.  The Fact Builder performs no referential-integrity
validation at all: whenever the eight raw inputs are present and nonempty,
the transform reaches the Loader handoff with its fact tables, regardless of
whether their foreign-key values appear in the referenced dimensions, and no
data-integrity error is ever reported. -/
theorem C1_amended_no_referential_check (inp : Inputs)
    (h : missingAny inp = false) : (transformMain inp).isSome = true := by
  obtain ⟨cs, its, ps, rs, os, cats, prods, sls⟩ := inp
  cases cs <;> cases its <;> cases ps <;> cases rs <;> cases os <;>
    cases cats <;> cases prods <;> cases sls <;>
    simp_all [transformMain, missingAny, missingOrEmpty]

/-- Witness for C1: the amended theorem applied to the concrete run
`exInputsC1`, whose inputs are all present and nonempty. -/
theorem C1_witness : (transformMain exInputsC1).isSome = true :=
  C1_amended_no_referential_check exInputsC1 (by rfl)

/-- Claim C2, counterexample.  The claim states `dim_customers` never has two
rows with the same `customer_id`.  On `exCustomersC2` — two raw rows with the
same account-scoped id but different zip code and city — the built dimension
keeps both rows (they are not exact duplicates after the order-scoped id
column is dropped), so the key column has a duplicate. -/
theorem C2_counterexample_duplicate_key :
    ¬ (((dimCustomers exCustomersC2).map (fun r => r.customer_id)).Nodup) := by
  decide

/-- Claim C2, amended.  `drop_duplicates()` (line 128) removes only exact
duplicate rows, so the dimension never contains two identical rows; the
natural key `customer_id` is duplicate-free exactly when any two raw rows
sharing an account-scoped identifier agree on every other attribute
(the synthetic name is a function of the identifier, so it then agrees too). -/
theorem C2_amended_key_uniqueness (customers : List CustomerRow)
    (h : ∀ r ∈ customers, ∀ s ∈ customers,
      r.customer_unique_id = s.customer_unique_id →
      r.customer_zip_code = s.customer_zip_code ∧
      r.customer_city = s.customer_city ∧
      r.customer_state = s.customer_state) :
    (dimCustomers customers).Nodup ∧
    ((dimCustomers customers).map (fun r => r.customer_id)).Nodup := by
  have hnd := dropDupKeepFirst_nodup (customers.map (fun r =>
    { customer_id := r.customer_unique_id
      customer_zip_code := r.customer_zip_code
      customer_city := r.customer_city
      customer_state := r.customer_state
      customer_name := customerName customers r.customer_unique_id : DimCustomerRow }))
  refine ⟨hnd, List.Nodup.map_on ?_ hnd⟩
  intro x hx y hy hkey
  have hx2 := dropDupKeepFirst_subset _ x hx
  have hy2 := dropDupKeepFirst_subset _ y hy
  rw [List.mem_map] at hx2 hy2
  obtain ⟨r, hr, rfl⟩ := hx2
  obtain ⟨t, ht, rfl⟩ := hy2
  have huid : r.customer_unique_id = t.customer_unique_id := hkey
  obtain ⟨hz, hc, hst⟩ := h r hr t ht huid
  simp [huid, hz, hc, hst]

/-- Witness for C2: the amended theorem applied to a one-row customers
table, where the agreement hypothesis holds trivially. -/
theorem C2_witness :
    ((dimCustomers [⟨1, 7, 10, "A", "S"⟩]).map (fun r => r.customer_id)).Nodup :=
  (C2_amended_key_uniqueness [⟨1, 7, 10, "A", "S"⟩] (by decide)).2

/-- Claim C3, counterexample.  The claim states `price = 10.40`,
`freight_value = 2.10` yields `total_price = 13`.  In cents: the sum is
1250 cents, exactly 12.5 units; `numpy.round` rounds half to even, giving 12,
not 13.  (The float64 computation agrees: `10.4 + 2.1` is exactly `12.5` in
float64, and `np.round(12.5) = 12.0`.) -/
theorem C3_counterexample_rounds_to_12 :
    total_price 1040 210 = 12 ∧ total_price 1040 210 ≠ 13 := by decide

/-- Claim C3, amended.  `total_price` is `freight_value + price` rounded to a
nearest integer with halves to even: the rounded value is always within half
a unit (50 cents) of the exact sum, and strictly the unique nearest integer
whenever the sum is not exactly half way; on the spec example (10.40, 2.10)
the result is 12, not 13. -/
theorem C3_amended_half_even_rounding (price freight_value : ℤ) :
    total_price 1040 210 = 12 ∧
    |(freight_value + price) - 100 * total_price price freight_value| ≤ 50 ∧
    (Int.emod (freight_value + price) 100 ≠ 50 →
      |(freight_value + price) - 100 * total_price price freight_value| < 50) := by
  have h := roundHalfEvenCents_nearest (freight_value + price)
  exact ⟨by decide, h.1, h.2⟩

/-- Witness for C3: the amended theorem at price 10.00, freight 2.34 (not a
tie), where the rounded total is strictly within half a unit. -/
theorem C3_witness :
    |((234 : ℤ) + 1000) - 100 * total_price 1000 234| < 50 :=
  (C3_amended_half_even_rounding 1000 234).2.2 (by decide)

/-- Claim C4.  Reviews are collapsed to at most one row per order before
the join (the deduplicated table has duplicate-free order ids); the retained
row is an original review of that order whose creation timestamp is maximal
among all reviews of the same order; and on the concrete two-review input
`exInputsC4` (timestamps 2018-01-01 and 2018-03-01) the fact table's rating
column carries exactly the 2018-03-01 review's score. -/
theorem C4_review_collapse (reviews : List Review) :
    ((dedupReviews reviews).map (fun r => r.order_id)).Nodup ∧
    (∀ r ∈ dedupReviews reviews, r ∈ reviews ∧
      ∀ s ∈ reviews, s.order_id = r.order_id →
        s.review_creation_date ≤ r.review_creation_date) ∧
    (transformMain exInputsC4).map (fun o =>
      o.fact_orders.map (fun r => r.order_rating)) = some [some 5] := by
  refine ⟨dropDupKeepLast_keys_nodup _ _, ?_, rfl⟩
  intro r hr
  rw [dedupReviews] at hr
  have hsub := dropDupKeepLast_subset (fun x => x.order_id) (sort_values reviews) r hr
  rw [sort_values] at hsub
  have hmem : r ∈ reviews := (List.mem_insertionSort reviewDateLe).mp hsub
  refine ⟨hmem, fun s hsm hkey => ?_⟩
  have hs2 : s ∈ sort_values reviews := by
    rw [sort_values]; exact (List.mem_insertionSort reviewDateLe).mpr hsm
  exact dropDupKeepLast_max_sorted (sort_values reviews)
    (List.sorted_insertionSort reviewDateLe reviews) r hr s hs2 hkey

/-- Witness for C4: the general part applied to the two-review list; the
kept row is the 2018-03-01 review, and the earlier review's timestamp is
dominated by it. -/
theorem C4_witness :
    exReviewA.review_creation_date ≤ exReviewB.review_creation_date :=
  (((C4_review_collapse [exReviewA, exReviewB]).2.1 exReviewB (by decide)).2)
    exReviewA (by decide) (by decide)

/-- Claim C5.  The generated date dimension has exactly 1096 rows, one per
calendar day of [2016-01-01, 2018-12-31]: the underlying date list has no
duplicate, starts at 2016-01-01, ends at 2018-12-31, and every element is
followed by exactly the next calendar day (no gap).  The generator
`date_range` is a closed, pure computation taking no clock input. -/
theorem C5_date_dimension_complete :
    dimDatesTable.length = 1096 ∧
    dimDatesList.Nodup ∧
    dimDatesList.head? = some ⟨2016, 1, 1⟩ ∧
    dimDatesList.getLast? = some ⟨2018, 12, 31⟩ ∧
    ((dimDatesList.zip dimDatesList.tail).all (fun p => p.2 == nextDay p.1)) = true := by
  refine ⟨rfl, ?_, rfl, rfl, rfl⟩
  have hmap : dimDatesList.map rataDie = List.range' 735964 1096 := by rfl
  exact List.Nodup.of_map rataDie
    (by rw [hmap]; exact List.nodup_range' 735964 1096)

/-- Claim C6, counterexample.  The claim states `week_by_year` is the ISO
week-of-year number.  The first row of the date dimension is 2016-01-01
(a Friday): its `week_by_year` is 0 under the `%W` convention the code uses,
while its ISO week number is 53 (it belongs to ISO week 53 of 2015). -/
theorem C6_counterexample_not_iso_week :
    dimDatesTable.head? = some (mkDimDateRow ⟨2016, 1, 1⟩) ∧
    (mkDimDateRow ⟨2016, 1, 1⟩).week_by_year = 0 ∧
    isoWeek ⟨2016, 1, 1⟩ = 53 := ⟨rfl, rfl, rfl⟩

/-- Claim C6, amended.  For every row of the date dimension, `week_by_year`
is the Monday-based `strftime("%W")` week number: days preceding the year's
first Monday are week 0, and each Monday starts the next week
(`mondayWeek` is that independent characterisation). -/
theorem C6_amended_monday_based_week :
    (dimDatesTable.all (fun r => r.week_by_year == mondayWeek r.date)) = true := by
  rfl

/-- Claim C7.  If any of the eight required raw tables is missing (failed to
load) or empty, the Transform stage returns before building any output
table: `transformMain` yields `none`. -/
theorem C7_fail_fast_on_empty_input (inp : Inputs)
    (h : missingOrEmpty inp.customers = true ∨
      missingOrEmpty inp.order_items = true ∨
      missingOrEmpty inp.order_payments = true ∨
      missingOrEmpty inp.order_reviews = true ∨
      missingOrEmpty inp.orders = true ∨
      missingOrEmpty inp.product_categories = true ∨
      missingOrEmpty inp.products = true ∨
      missingOrEmpty inp.sellers = true) :
    transformMain inp = none := by
  have hm : missingAny inp = true := by
    unfold missingAny
    rcases h with h | h | h | h | h | h | h | h <;> simp [h]
  unfold transformMain
  simp [hm]

/-- Witness for C7: the fail-fast theorem applied to an input whose
customers table is empty. -/
theorem C7_witness : transformMain exInputsC7 = none :=
  C7_fail_fast_on_empty_input exInputsC7 (Or.inl (by rfl))

/-- Claim C8, counterexample.  The claim states every product whose raw code
is present in the lookup carries that code's canonical label.  With the
lookup `[("unknown", "misc")]` and a product whose code is `unknown`, the
code is present in the lookup with label `misc`, yet the enriched product
carries `unknown`: line 106 overwrites the dict entry for the key `unknown`
before the rewrite, so the first part of the claim conflicts with its third
part on this input. -/
theorem C8_counterexample_unknown_override :
    CategoryRow.mk ("unknown") ("misc") ∈ exCatsC8 ∧
    (dimProducts exProductsC8 exCatsC8).map (fun p => p.product_category_name) =
      ["unknown"] ∧
    ("unknown" : String) ≠ "misc" :=
  ⟨List.mem_cons_self _ _, rfl, by decide⟩

/-- Claim C8, amended.  After enrichment: a product whose code is present in
the lookup (last occurrence winning) and is not the literal `unknown`
carries that code's canonical label; a code absent from the lookup resolves
to `unknown`; the literal code `unknown` always resolves to `unknown`; and
the dimension's category column is exactly this rewrite applied row-wise. -/
theorem C8_amended_category_rewrite (cats : List CategoryRow) (c : String) :
    (c ≠ "unknown" → ∀ l, categoryLabel cats c = some l →
      enrichCategory cats c = l) ∧
    (categoryLabel cats c = none → enrichCategory cats c = "unknown") ∧
    (c = "unknown" → enrichCategory cats c = "unknown") ∧
    (∀ prods : List ProductRaw,
      (dimProducts prods cats).map (fun p => p.product_category_name) =
        prods.map (fun p => enrichCategory cats p.product_category_name)) := by
  refine ⟨?_, ?_, ?_, ?_⟩
  · intro hne l hl
    simp [enrichCategory, categoryLookupWithOverride, hne, hl]
  · intro hl
    by_cases hc : c = "unknown"
    · simp [enrichCategory, categoryLookupWithOverride, hc]
    · simp [enrichCategory, categoryLookupWithOverride, hc, hl]
  · intro hc
    simp [enrichCategory, categoryLookupWithOverride, hc]
  · intro prods
    rw [dimProducts, List.map_map]
    rfl

/-- Witness for C8: a code present in the lookup and different from
`unknown` resolves to its canonical label. -/
theorem C8_witness : enrichCategory [⟨"cat", "category"⟩] ("cat") = "category" :=
  (C8_amended_category_rewrite [⟨"cat", "category"⟩] ("cat")).1
    (by decide) ("category") (by rfl)

/-- Claim C9.  The `create_tables_in_snowflake` defined inside
Transform/transform.py (which, being defined after the import of line 10,
is the binding the loop of lines 251-254 calls) returns `True` for every
query without executing anything; consequently the
`Failed to create table` branch never runs: the creation loop succeeds on
the pipeline's six tables and indeed on every list of table creations. -/
theorem C9_local_create_stub_always_true :
    (∀ q : String, create_tables_in_snowflake q = true) ∧
    runTableCreations table_creations = Except.ok () ∧
    (∀ l : List (String × String), runTableCreations l = Except.ok ()) := by
  refine ⟨fun _ => rfl, rfl, fun l => ?_⟩
  induction l with
  | nil => rfl
  | cons x xs ih => simp [runTableCreations, create_tables_in_snowflake, ih]

/-- Claim C10, counterexample.  The claim states both loaders mutate the
caller's frame before any upload is attempted, so the argument is not left
unchanged even when the upload fails.  But `load_df_to_snowflake` checks its
env vars before touching the frame: with the env check failing, it returns
`False` with the frame exactly as passed, although the frame has an
object-dtype `_id` column whose converted form differs. -/
theorem C10_counterexample_guard_skips_mutation :
    load_df_to_snowflake false ("FACT_ORDERS") exDfC10 true = (false, exDfC10) ∧
    convertIdCols exDfC10 ≠ exDfC10 := ⟨rfl, by decide⟩

/-- Claim C10, amended.  `upload_df_to_s3` converts `_id` object columns
unconditionally before the serialisation and upload attempts, whatever their
outcomes; `load_df_to_snowflake` performs the conversion and the UTC
localisation only after its env-var, emptiness and table-name guards pass
(then regardless of the write outcome), and leaves the frame untouched when
a guard fails. -/
theorem C10_amended_mutation_effects :
    (∀ (df : List Column) (parquetOk putOk : Bool),
      (upload_df_to_s3 df parquetOk putOk).2 = convertIdCols df) ∧
    (∀ (table : String) (df : List Column) (writeOk : Bool),
      dfEmpty df = false → (table == "") = false →
      (load_df_to_snowflake true table df writeOk).2 =
        localizeNaive (convertIdCols df)) ∧
    (∀ (table : String) (df : List Column) (writeOk : Bool),
      load_df_to_snowflake false table df writeOk = (false, df)) := by
  refine ⟨fun df pOk uOk => ?_, fun t df w he ht => ?_, fun t df w => rfl⟩
  · unfold upload_df_to_s3
    cases pOk <;> rfl
  · unfold load_df_to_snowflake
    simp [he, ht]

/-- Witness for C10: the snowflake loader applied past its guards on a
nonempty frame with a valid table name. -/
theorem C10_witness :
    (load_df_to_snowflake true ("FACT_ORDERS") exDfC10 true).2 =
      localizeNaive (convertIdCols exDfC10) :=
  C10_amended_mutation_effects.2.1 ("FACT_ORDERS") exDfC10 true (by rfl) (by rfl)

end ETL
